import Mathlib

/-!
Verification development for the CCTV video-analysis client (src/app.py):
a shallow embedding of its upload / poll / analyze workflow, followed by
theorems settling the specified properties.

Conventions of the embedding:
* JSON values are modelled by the inductive type `Json`.
* Python dictionary / list indexing (`x["k"]`, `x[0]`) is modelled by
  `Json.getKey` / `Json.getIdx`, returning `Except PyErr Json` where `PyErr`
  distinguishes `KeyError`, `IndexError` and `TypeError` — the distinction
  matters because the response-parsing code catches only some of them.
* The Streamlit session state (`file_uri`, `file_name`, `upload_complete`,
  lines 20-25 of app.py) is the record `WorkflowState`; `st.stop()` is
  modelled by returning the state reached so far.
* The remote service is modelled by an environment record (`UploadEnv`)
  listing the responses each HTTP call would produce; `none` stands for a
  transport/HTTP-status failure (an exception from `requests`).
-/

/-- JSON values, as decoded by the client. Numbers are restricted to the
integers, which covers every value this program manipulates. -/
inductive Json where
  | null : Json
  | bool : Bool → Json
  | num : Int → Json
  | str : String → Json
  | arr : List Json → Json
  | obj : List (String × Json) → Json
deriving Repr

/-- Exceptions raised by Python subscript operations, as far as this
program distinguishes them. -/
inductive PyErr where
  | keyError : PyErr
  | indexError : PyErr
  | typeError : PyErr
deriving Repr, DecidableEq

/-- Python `x[k]` for a string key `k`: dictionary lookup (KeyError when the
key is absent), TypeError on any non-dictionary receiver. -/
def Json.getKey : Json → String → Except PyErr Json
  | .obj kvs, k =>
    match kvs.lookup k with
    | some v => .ok v
    | none => .error .keyError
  | _, _ => .error .typeError

/-- Python `x[i]` for an integer index `i ≥ 0`: list indexing (IndexError
past the end), string indexing (yielding a one-character string), KeyError
on a JSON dictionary (whose keys are strings), TypeError otherwise. -/
def Json.getIdx : Json → Nat → Except PyErr Json
  | .arr xs, i =>
    match xs.get? i with
    | some v => .ok v
    | none => .error .indexError
  | .str s, i =>
    match s.toList.get? i with
    | some c => .ok (.str (String.mk [c]))
    | none => .error .indexError
  | .obj _, _ => .error .keyError
  | _, _ => .error .typeError

/-- Decides whether the character list `n` occurs at the start of `h`. -/
def matchesAt : List Char → List Char → Bool
  | [], _ => true
  | _ :: _, [] => false
  | a :: as, b :: bs => a == b && matchesAt as bs

/-- Decides whether the character list `n` occurs anywhere inside `h`. -/
def occursIn (n : List Char) : List Char → Bool
  | [] => matchesAt n []
  | c :: cs => matchesAt n (c :: cs) || occursIn n cs

/-- Python `k in j` for a string `k`: key membership for dictionaries,
element membership for lists (a string equals only an equal string),
substring test for strings, TypeError otherwise. -/
def pyContains (j : Json) (k : String) : Except PyErr Bool :=
  match j with
  | .obj kvs => .ok (kvs.lookup k).isSome
  | .arr xs =>
    .ok (xs.any fun x =>
      match x with
      | .str t => t == k
      | _ => false)
  | .str s => .ok (occursIn k.toList s.toList)
  | _ => .error .typeError

/-- State extraction from one poll response body (app.py lines 88-91):
`if "file" in file_data: state = file_data["file"]["state"]
else: state = file_data["state"]`. -/
def extractPollState (body : Json) : Except PyErr Json :=
  match pyContains body "file" with
  | .error e => .error e
  | .ok true =>
    match body.getKey "file" with
    | .error e => .error e
    | .ok f => f.getKey "state"
  | .ok false => body.getKey "state"

/-- Python `state == "PROCESSING"` (app.py line 82): true exactly for the
JSON string "PROCESSING"; comparison with any other value is False. -/
def isProcessing : Json → Bool
  | .str s => s == "PROCESSING"
  | _ => false

/-- Python `state == "FAILED"` (app.py line 96). -/
def isFailedState : Json → Bool
  | .str s => s == "FAILED"
  | _ => false

/-- Outcome of the polling loop (app.py lines 81-94). `stopped` is the
`st.stop()` taken when an individual poll request raises (transport failure,
non-success HTTP status, or a missing field in the body — all caught by the
same `except`); `finished st` is the loop exiting because the extracted
state `st` no longer equals "PROCESSING"; `exhausted` marks the cut-off of
a finite observation list while the state still reads "PROCESSING" (the
program itself would keep polling forever). -/
inductive PollOutcome where
  | stopped : PollOutcome
  | finished : Json → PollOutcome
  | exhausted : PollOutcome
deriving Repr

/-- Polling loop (app.py lines 81-94): `state = "PROCESSING"` then
`while state == "PROCESSING": time.sleep(2); ...`. The input lists the
result of each successive GET on the file resource (`none` = the request
raised). The first component records the argument of each `time.sleep`
executed, one per iteration; the second is the outcome. -/
def pollLoop : List (Option Json) → List Nat × PollOutcome
  | [] => ([], .exhausted)
  | none :: _ => ([2], .stopped)
  | some body :: rest =>
    match extractPollState body with
    | .error _ => ([2], .stopped)
    | .ok st =>
      if isProcessing st then
        (2 :: (pollLoop rest).1, (pollLoop rest).2)
      else
        ([2], .finished st)

/-- Streamlit session state of the workflow (app.py lines 20-25).
`file_uri` and `file_name` hold the two FileHandle fields exactly as
assigned from the transmit response; `upload_complete` gates the analysis
section (line 104). -/
structure WorkflowState where
  file_uri : Option Json
  file_name : Option Json
  upload_complete : Bool
deriving Repr

/-- Session-state initialization (app.py lines 20-25). -/
def initialState : WorkflowState :=
  { file_uri := none, file_name := none, upload_complete := false }

/-- Remote responses consumed by one press of the "Upload & Process Video"
button: the initiation call (`some url` = session URL obtained, `none` =
HTTP error or missing X-Goog-Upload-URL header), the transmit call
(`some body` = response JSON, `none` = transport/HTTP failure), and the
successive poll responses. -/
structure UploadEnv where
  initResult : Option String
  transmitResult : Option Json
  pollResults : List (Option Json)

/-- Reading of `file_info["file"]["uri"]` from the transmit response
(app.py line 71). -/
def transmitUri (body : Json) : Except PyErr Json := do
  (← body.getKey "file").getKey "uri"

/-- Reading of `file_info["file"]["name"]` from the transmit response
(app.py line 72). -/
def transmitName (body : Json) : Except PyErr Json := do
  (← body.getKey "file").getKey "name"

/-- One press of the "Upload & Process Video" button (app.py lines 40-101),
as a transformer of the session state. Every `st.stop()` (upload failure at
line 77, poll failure at line 94, FAILED state at line 98) returns the
session state as mutated so far; in particular the two FileHandle fields
are assigned one after the other at lines 71-72, so a response containing
`file.uri` but not `file.name` updates `file_uri` and then stops. -/
def uploadStep (s : WorkflowState) (env : UploadEnv) : WorkflowState :=
  match env.initResult with
  | none => s
  | some _url =>
    match env.transmitResult with
    | none => s
    | some body =>
      match transmitUri body with
      | .error _ => s
      | .ok u =>
        let s1 := { s with file_uri := some u }
        match transmitName body with
        | .error _ => s1
        | .ok n =>
          let s2 := { s1 with file_name := some n }
          match (pollLoop env.pollResults).2 with
          | .stopped => s2
          | .exhausted => s2
          | .finished st =>
            if isFailedState st then s2
            else { s2 with upload_complete := true }

/-- Guard of the analysis section (app.py line 104): the "Run Analysis"
button, and with it any generateContent request, is reachable exactly when
`upload_complete` is set. -/
def canAnalyze (s : WorkflowState) : Bool :=
  s.upload_complete

/-- Analysis modes offered by the selectbox (app.py lines 108-111). -/
inductive AnalysisMode where
  | anomalyDetection : AnalysisMode
  | objectDetection : AnalysisMode
  | unknownPersonDetection : AnalysisMode
  | summarization : AnalysisMode
deriving Repr, DecidableEq

/-- Prompt template for Anomaly Detection (app.py lines 116-120). -/
def anomalyTemplate : String :=
  "Analyze the video for any anomalies, unusual events, or safety hazards. Return a JSON list of events with the following schema: [\x7b'timestamp': 'MM:SS', 'description': 'string', 'severity': 'low/medium/high'\x7d]"

/-- Prompt template for Object Detection (app.py lines 122-126). -/
def objectTemplate : String :=
  "Detect the main objects (cars, people, bags, etc.) in the video. Return a JSON list with the following schema: [\x7b'object_name': 'string', 'count': int, 'timestamps': ['MM:SS', ...]\x7d]"

/-- Prompt template for Unknown Person Detection (app.py lines 128-133). -/
def unknownPersonTemplate : String :=
  "Identify individuals in the video. Flag any that appear to be unauthorized, suspicious, or unknown (based on general context, e.g., loitering, hiding face). Return a JSON list with: [\x7b'timestamp': 'MM:SS', 'description': 'string', 'suspicion_level': 'low/medium/high'\x7d]"

/-- Prompt template for Summarization (app.py lines 136-139). -/
def summarizationTemplate : String :=
  "Summarize this video. Return a JSON object with: \x7b'summary': 'string', 'key_events': [\x7b'timestamp': 'MM:SS', 'event': 'string'\x7d]\x7d"

/-- Sentence appended ahead of the focus text (app.py line 141). -/
def focusClause : String :=
  " Focus the summary only on: "

/-- Prompt construction (app.py lines 113-141). The focus text box exists
only in Summarization mode; `if focus_points:` appends the focus clause
exactly when the text is non-empty (Python string truthiness). -/
def buildPrompt (m : AnalysisMode) (focus : String) : String :=
  match m with
  | .anomalyDetection => anomalyTemplate
  | .objectDetection => objectTemplate
  | .unknownPersonDetection => unknownPersonTemplate
  | .summarization =>
    if focus = "" then summarizationTemplate
    else summarizationTemplate ++ (focusClause ++ focus)

/-- Request payload of the generateContent call (app.py lines 149-159). -/
def buildPayload (fileUri : Json) (prompt : String) : Json :=
  .obj
    [("contents", .arr
       [.obj
         [("parts", .arr
            [.obj [("file_data", .obj
                     [("mime_type", .str "video/mp4"),
                      ("file_uri", fileUri)])],
             .obj [("text", .str prompt)]])]]),
     ("generationConfig", .obj
       [("responseMimeType", .str "application/json")])]

/-- One press of "Run Analysis" (app.py lines 143-161), up to the issuing
of the HTTP request: the payload is built from the session state's
`file_uri` (Python `None` serializes to JSON null) and the freshly built
prompt; the block assigns nothing to the session state, so the state comes
back unchanged. -/
def runAnalysisRequest (s : WorkflowState) (m : AnalysisMode) (focus : String) :
    Json × WorkflowState :=
  (buildPayload (s.file_uri.getD Json.null) (buildPrompt m focus), s)

/-- Headers of the upload-initiation request (app.py lines 44-50). -/
def initHeaders (fileSize : Nat) : List (String × String) :=
  [("X-Goog-Upload-Protocol", "resumable"),
   ("X-Goog-Upload-Command", "start"),
   ("X-Goog-Upload-Header-Content-Length", toString fileSize),
   ("X-Goog-Upload-Header-Content-Type", "video/mp4"),
   ("Content-Type", "application/json")]

/-- File-type allow-list of the uploader widget (app.py line 29). -/
def allowedUploadTypes : List String :=
  ["mp4", "mov", "avi", "webm"]

/-- Whitespace skipping for the JSON text reader. -/
def skipWs : List Char → List Char
  | [] => []
  | c :: cs =>
    if c == ' ' || c == '\n' || c == '\t' || c == '\r' then skipWs cs
    else c :: cs

/-- Decoding of a single JSON string escape. Unicode escapes (\u) are
outside the modelled subset and make the read fail. -/
def escChar (e : Char) : Option Char :=
  if e == '"' then some '"'
  else if e == '\\' then some '\\'
  else if e == '/' then some '/'
  else if e == 'n' then some '\n'
  else if e == 't' then some '\t'
  else if e == 'r' then some '\r'
  else if e == 'b' then some (Char.ofNat 8)
  else if e == 'f' then some (Char.ofNat 12)
  else none

/-- Reading of the body of a JSON string literal, after the opening quote,
accumulating decoded characters until the closing quote. -/
def parseStrChars : Nat → List Char → List Char → Option (String × List Char)
  | 0, _, _ => none
  | _ + 1, [], _ => none
  | f + 1, c :: rest, acc =>
    if c == '"' then some (String.mk acc.reverse, rest)
    else if c == '\\' then
      match rest with
      | [] => none
      | e :: rest2 =>
        match escChar e with
        | some d => parseStrChars f rest2 (d :: acc)
        | none => none
    else parseStrChars f rest (c :: acc)

/-- Longest leading run of decimal digits, with the remaining input. -/
def takeDigits : List Char → List Char × List Char
  | [] => ([], [])
  | c :: cs =>
    if c.isDigit then ((c :: (takeDigits cs).1), (takeDigits cs).2)
    else ([], c :: cs)

/-- Numeric value of a digit run. -/
def digitsVal (ds : List Char) : Nat :=
  ds.foldl (fun a c => a * 10 + (c.toNat - 48)) 0

/-- Detection of a fractional part or exponent after a digit run; numbers
with either are outside the modelled JSON subset. -/
def numberContinues : List Char → Bool
  | [] => false
  | c :: _ => c == '.' || c == 'e' || c == 'E'

mutual

/-- Recursive-descent reader for one JSON value, fuelled by `Nat`. This
models the stdlib `json.loads` on the subset this program exchanges:
objects, arrays, strings with one-character escapes, integers, booleans
and null. -/
def parseValue : Nat → List Char → Option (Json × List Char)
  | 0, _ => none
  | f + 1, cs0 =>
    match skipWs cs0 with
    | [] => none
    | c :: cs =>
      if c == '"' then
        match parseStrChars (f + 1) cs [] with
        | some (s, rest) => some (.str s, rest)
        | none => none
      else if c == '[' then
        match skipWs cs with
        | ']' :: rest => some (.arr [], rest)
        | _ => parseArrRest f (skipWs cs) []
      else if c == '\x7b' then
        match skipWs cs with
        | '\x7d' :: rest => some (.obj [], rest)
        | _ => parseObjRest f (skipWs cs) []
      else if c == 't' then
        match cs with
        | 'r' :: 'u' :: 'e' :: rest => some (.bool true, rest)
        | _ => none
      else if c == 'f' then
        match cs with
        | 'a' :: 'l' :: 's' :: 'e' :: rest => some (.bool false, rest)
        | _ => none
      else if c == 'n' then
        match cs with
        | 'u' :: 'l' :: 'l' :: rest => some (.null, rest)
        | _ => none
      else if c == '-' then
        match takeDigits cs with
        | ([], _) => none
        | (ds, rest) =>
          if numberContinues rest then none
          else some (.num (-(digitsVal ds : Int)), rest)
      else if c.isDigit then
        match takeDigits (c :: cs) with
        | (ds, rest) =>
          if numberContinues rest then none
          else some (.num (digitsVal ds), rest)
      else none

/-- Reader for the elements of a non-empty JSON array, after the opening
bracket. -/
def parseArrRest : Nat → List Char → List Json → Option (Json × List Char)
  | 0, _, _ => none
  | f + 1, cs, acc =>
    match parseValue f cs with
    | none => none
    | some (v, rest) =>
      match skipWs rest with
      | ',' :: rest2 => parseArrRest f rest2 (acc ++ [v])
      | ']' :: rest2 => some (.arr (acc ++ [v]), rest2)
      | _ => none

/-- Reader for the members of a non-empty JSON object, after the opening
brace. -/
def parseObjRest : Nat → List Char → List (String × Json) → Option (Json × List Char)
  | 0, _, _ => none
  | f + 1, cs, acc =>
    match skipWs cs with
    | '"' :: rest =>
      match parseStrChars (f + 1) rest [] with
      | some (k, rest2) =>
        match skipWs rest2 with
        | ':' :: rest3 =>
          match parseValue f rest3 with
          | some (v, rest4) =>
            match skipWs rest4 with
            | ',' :: rest5 => parseObjRest f rest5 (acc ++ [(k, v)])
            | '\x7d' :: rest5 => some (.obj (acc ++ [(k, v)]), rest5)
            | _ => none
          | none => none
        | _ => none
      | none => none
    | _ => none

end

/-- Model of `json.loads` (app.py line 168) on the JSON subset this
program exchanges: the whole input must read as one value, possibly
surrounded by whitespace; `none` is a `json.JSONDecodeError`. -/
def jsonLoads (s : String) : Option Json :=
  match parseValue (2 * s.length + 2) s.toList with
  | some (v, rest) => if (skipWs rest).isEmpty then some v else none
  | none => none

/-- Field extraction of app.py line 166:
`result["candidates"][0]["content"]["parts"][0]["text"]`, with Python's
exception on each step. -/
def extractText (result : Json) : Except PyErr Json := do
  let c ← result.getKey "candidates"
  let c0 ← c.getIdx 0
  let ct ← c0.getKey "content"
  let ps ← ct.getKey "parts"
  let p0 ← ps.getIdx 0
  p0.getKey "text"

/-- Display path taken for one generateContent response (app.py
lines 163-179): `structured` is `st.json` on the parsed value, `raw` is the
ResponseParseError fallback showing the full raw body via `st.text(result)`,
and `failed` is an exception escaping to the outer handler at line 176
("Analysis failed"), which shows no result at all. -/
inductive AnalysisDisplay where
  | structured : Json → AnalysisDisplay
  | raw : Json → AnalysisDisplay
  | failed : AnalysisDisplay
deriving Repr

/-- Response handling of app.py lines 165-174. The inner `except` catches
exactly `(KeyError, json.JSONDecodeError)`: a KeyError during extraction or
a decode failure of the text lands on the raw fallback, while an IndexError
(empty candidates or parts list), a TypeError (unexpected shapes, or
`json.loads` applied to a non-string) escapes to the outer handler. -/
def parseAnalysisResponse (result : Json) : AnalysisDisplay :=
  match extractText result with
  | .error .keyError => .raw result
  | .error .indexError => .failed
  | .error .typeError => .failed
  | .ok v =>
    match v with
    | .str t =>
      match jsonLoads t with
      | some j => .structured j
      | none => .raw result
    | _ => .failed

/-- Membership in the processing-state enumeration of the data model:
FileHandle.state ranges over PROCESSING, ACTIVE and FAILED. -/
def isEnumState : Json → Bool
  | .str s => s == "PROCESSING" || s == "ACTIVE" || s == "FAILED"
  | _ => false

/-- Well-formedness of one poll response with respect to the data model: a
transport failure, a body the extraction rejects, or a body whose extracted
state lies in the three-state enumeration. -/
def pollRespEnum : Option Json → Bool
  | none => true
  | some b =>
    match extractPollState b with
    | .error _ => true
    | .ok st => isEnumState st

/-- Transmit response of a fully successful upload, as documented for the
finalize call: `file.uri`, `file.name` and `file.state` all present. -/
def goodTransmitBody : Json :=
  .obj [("file", .obj
    [("uri", .str "https://files/uri1"),
     ("name", .str "files/abc"),
     ("state", .str "PROCESSING")])]

/-- Environment of an upload run that succeeds: session URL obtained,
transmit finalized, and polling that reports PROCESSING once and then
ACTIVE (exercising both tolerated response shapes). -/
def envUploadOk : UploadEnv :=
  { initResult := some "sessionUrl1",
    transmitResult := some goodTransmitBody,
    pollResults :=
      [some (.obj [("state", .str "PROCESSING")]),
       some (.obj [("file", .obj [("state", .str "ACTIVE")])])] }

/-- Environment of a second upload run whose transmit succeeds with a fresh
handle but whose first poll reports state FAILED. -/
def envUploadThenFailed : UploadEnv :=
  { initResult := some "sessionUrl2",
    transmitResult := some (.obj [("file", .obj
      [("uri", .str "https://files/uri2"),
       ("name", .str "files/def"),
       ("state", .str "PROCESSING")])]),
    pollResults := [some (.obj [("state", .str "FAILED")])] }

/-- Environment of an upload run whose initiation call fails (non-success
HTTP status or missing session-URL header): nothing further is attempted. -/
def envInitRefused : UploadEnv :=
  { initResult := none, transmitResult := none, pollResults := [] }

/-- Environment of an upload run whose transmit response carries an empty
`file.uri` and no `file.name` at all. -/
def envPartialHandle : UploadEnv :=
  { initResult := some "sessionUrl3",
    transmitResult := some (.obj [("file", .obj [("uri", .str "")])]),
    pollResults := [] }

/-- Response body of a generateContent call whose first candidate's first
part carries the text `t`. -/
def mkCandidateResponse (t : String) : Json :=
  .obj [("candidates", .arr
    [.obj [("content", .obj
      [("parts", .arr [.obj [("text", .str t)]])])]])]

/-- Generated text of the specified parser example, a JSON object with a
summary and an empty key_events list. -/
def okSummaryText : String :=
  "\x7b\"summary\":\"ok\",\"key_events\":[]\x7d"

/-- Response body with a present but empty candidates list. -/
def respEmptyCandidates : Json :=
  .obj [("candidates", .arr [])]

/-- Poll-response list of a single successful poll reporting ACTIVE. -/
def wPollActive : List (Option Json) :=
  [some (.obj [("state", .str "ACTIVE")])]

/-- Reading of the declared mime type back out of a request payload,
along the path `contents[0].parts[0].file_data.mime_type`. -/
def payloadMime (p : Json) : Except PyErr Json := do
  let cs ← p.getKey "contents"
  let c0 ← cs.getIdx 0
  let ps ← c0.getKey "parts"
  let p0 ← ps.getIdx 0
  let fd ← p0.getKey "file_data"
  fd.getKey "mime_type"

/-!
Theorems settling the claims. Concrete multi-run executions are written as
iterated applications of `uploadStep` starting from `initialState`, which
is exactly how the Streamlit session state evolves across button presses:
the session state persists between script runs and nothing in app.py ever
clears `file_uri`, `file_name` or `upload_complete`.
-/

/-- C1: the claim states that an analysis request is issued only while the
last observed FileHandle state is ACTIVE. The code violates this: after a
first upload whose polling reached ACTIVE (`envUploadOk`), a second upload
whose polling observes FAILED (`envUploadThenFailed`) leaves
`upload_complete` set — it was set by the first run and is never cleared —
so the analysis section stays reachable although the last observed state is
FAILED, not ACTIVE. This theorem evaluates the model on that execution. -/
theorem C1_analysis_possible_after_failed_poll :
    (pollLoop envUploadThenFailed.pollResults).2 = .finished (Json.str "FAILED")
    ∧ canAnalyze (uploadStep (uploadStep initialState envUploadOk) envUploadThenFailed) = true :=
  ⟨rfl, rfl⟩

/-- C2: the claim states that a FAILED poll discards the FileHandle and
makes analysis impossible without a new upload. The code violates this in
an execution where a prior upload had completed: after `envUploadOk` and
then `envUploadThenFailed`, the session still has `upload_complete = true`
and holds the failed upload's fresh handle fields, so analysis remains
possible — and would reference the FAILED file's uri. -/
theorem C2_handle_kept_after_failed_poll :
    (uploadStep (uploadStep initialState envUploadOk) envUploadThenFailed).upload_complete = true
    ∧ (uploadStep (uploadStep initialState envUploadOk) envUploadThenFailed).file_uri
        = some (Json.str "https://files/uri2")
    ∧ (uploadStep (uploadStep initialState envUploadOk) envUploadThenFailed).file_name
        = some (Json.str "files/def") :=
  ⟨rfl, rfl, rfl⟩

/-- C3, counterexample: a transmit response carrying `file.uri` (here the
empty string) but no `file.name` updates the stored uri and then raises,
producing exactly the partially-populated handle the claim rules out — and
with an empty uri at that. -/
theorem C3_counterexample_partial_handle :
    (uploadStep initialState envPartialHandle).file_uri = some (Json.str "")
    ∧ (uploadStep initialState envPartialHandle).file_name = none :=
  ⟨rfl, rfl⟩

/-- C3, amended: the transmitter either raises before any assignment
(leaving the whole state unchanged), or stores the response's `file.uri`
verbatim; `file.name` is assigned only afterwards, so a response with a
readable uri but a missing name leaves `file_name` (and `upload_complete`)
untouched while `file_uri` is already overwritten. No emptiness check is
performed on either field. -/
theorem C3_transmit_field_assignment (s : WorkflowState) (env : UploadEnv)
    (url : String) (body : Json)
    (hi : env.initResult = some url) (ht : env.transmitResult = some body) :
    (∀ e, transmitUri body = .error e → uploadStep s env = s)
    ∧ (∀ u, transmitUri body = .ok u →
        (uploadStep s env).file_uri = some u
        ∧ (∀ e, transmitName body = .error e →
            (uploadStep s env).file_name = s.file_name
            ∧ (uploadStep s env).upload_complete = s.upload_complete)
        ∧ (∀ n, transmitName body = .ok n → (uploadStep s env).file_name = some n)) := by
  simp only [uploadStep, hi, ht]
  constructor
  · intro e he; rw [he]
  · intro u hu
    rw [hu]
    refine ⟨?_, ?_, ?_⟩
    · cases hn : transmitName body with
      | error e => rfl
      | ok n =>
        cases hp : (pollLoop env.pollResults).2 with
        | stopped => rfl
        | exhausted => rfl
        | finished st =>
          by_cases hf : isFailedState st
          · simp [hf]
          · simp [hf]
    · intro e hn
      rw [hn]
      exact ⟨rfl, rfl⟩
    · intro n hn
      rw [hn]
      cases hp : (pollLoop env.pollResults).2 with
      | stopped => rfl
      | exhausted => rfl
      | finished st =>
        by_cases hf : isFailedState st
        · simp [hf]
        · simp [hf]

/-- C3, witness: the amended theorem applied to the fully successful
upload environment. -/
theorem C3_transmit_field_assignment_witness :
    envUploadOk.initResult = some "sessionUrl1"
    ∧ envUploadOk.transmitResult = some goodTransmitBody
    ∧ transmitUri goodTransmitBody = .ok (Json.str "https://files/uri1")
    ∧ ((uploadStep initialState envUploadOk).file_uri = some (Json.str "https://files/uri1")) :=
  ⟨rfl, rfl, rfl,
   ((C3_transmit_field_assignment initialState envUploadOk "sessionUrl1" goodTransmitBody
      rfl rfl).2 (Json.str "https://files/uri1") rfl).1⟩

/-- C4, counterexample: the claim states that starting a new upload
discards the previous handle, making it unusable for analysis whether the
new upload succeeds or fails. But when the new upload's initiation call
fails (`envInitRefused`), the old handle is still stored and
`upload_complete` is still set, so the old uri remains fully usable. -/
theorem C4_counterexample_old_handle_usable :
    (uploadStep (uploadStep initialState envUploadOk) envInitRefused).file_uri
      = some (Json.str "https://files/uri1")
    ∧ canAnalyze (uploadStep (uploadStep initialState envUploadOk) envInitRefused) = true :=
  ⟨rfl, rfl⟩

/-- C4, amended: the previous handle is replaced only when the new
upload's transmit response actually supplies the fields; an upload that
fails at initiation or at transmit leaves the stored handle (and the
analysis gate) exactly as it was. -/
theorem C4_handle_replaced_on_transmit_success (s : WorkflowState) (env : UploadEnv) :
    (env.initResult = none → uploadStep s env = s)
    ∧ (∀ url, env.initResult = some url → env.transmitResult = none → uploadStep s env = s)
    ∧ (∀ url body u n, env.initResult = some url → env.transmitResult = some body →
        transmitUri body = .ok u → transmitName body = .ok n →
        (uploadStep s env).file_uri = some u ∧ (uploadStep s env).file_name = some n) := by
  refine ⟨?_, ?_, ?_⟩
  · intro h; simp [uploadStep, h]
  · intro url h1 h2; simp [uploadStep, h1, h2]
  · intro url body u n h1 h2 hu hn
    simp only [uploadStep, h1, h2, hu, hn]
    cases hp : (pollLoop env.pollResults).2 with
    | stopped => exact ⟨rfl, rfl⟩
    | exhausted => exact ⟨rfl, rfl⟩
    | finished st => by_cases hf : isFailedState st <;> simp [hf]

/-- C4, witness: the amended theorem applied to the successful upload
environment, whose transmit supplies both fields. -/
theorem C4_handle_replaced_witness :
    envUploadOk.initResult = some "sessionUrl1"
    ∧ envUploadOk.transmitResult = some goodTransmitBody
    ∧ transmitUri goodTransmitBody = .ok (Json.str "https://files/uri1")
    ∧ transmitName goodTransmitBody = .ok (Json.str "files/abc")
    ∧ ((uploadStep initialState envUploadOk).file_uri = some (Json.str "https://files/uri1")
       ∧ (uploadStep initialState envUploadOk).file_name = some (Json.str "files/abc")) :=
  ⟨rfl, rfl, rfl, rfl,
   (C4_handle_replaced_on_transmit_success initialState envUploadOk).2.2 _ _ _ _ rfl rfl rfl rfl⟩

/-- C5: the poller sleeps exactly 2 seconds before every poll attempt,
never returns control with the observed state still reading PROCESSING,
and — when every observed state lies in the PROCESSING/ACTIVE/FAILED
enumeration of the data model — it ends only by stopping on a failed poll
request, by finishing on ACTIVE or FAILED, or (in the model's finite
observation) by still being mid-loop. -/
theorem C5_poller_terminal_behavior (rs : List (Option Json))
    (henum : rs.all pollRespEnum = true) :
    (∀ d ∈ (pollLoop rs).1, d = 2)
    ∧ (∀ st, (pollLoop rs).2 = .finished st → isProcessing st = false)
    ∧ ((pollLoop rs).2 = .stopped
       ∨ (pollLoop rs).2 = .finished (Json.str "ACTIVE")
       ∨ (pollLoop rs).2 = .finished (Json.str "FAILED")
       ∨ (pollLoop rs).2 = .exhausted) := by
  induction rs with
  | nil =>
    refine ⟨?_, ?_, ?_⟩
    · intro d hd; simp [pollLoop] at hd
    · intro st h; simp [pollLoop] at h
    · simp [pollLoop]
  | cons r rest ih =>
    rw [List.all_cons, Bool.and_eq_true] at henum
    obtain ⟨hr, hrest⟩ := henum
    cases r with
    | none =>
      refine ⟨?_, ?_, ?_⟩
      · intro d hd; simp [pollLoop] at hd; exact hd
      · intro st h; simp [pollLoop] at h
      · simp [pollLoop]
    | some b =>
      cases hx : extractPollState b with
      | error e =>
        refine ⟨?_, ?_, ?_⟩
        · intro d hd; simp [pollLoop, hx] at hd; exact hd
        · intro st h; simp [pollLoop, hx] at h
        · simp [pollLoop, hx]
      | ok st0 =>
        have hb : isEnumState st0 = true := by
          simpa [pollRespEnum, hx] using hr
        by_cases hp : isProcessing st0 = true
        · obtain ⟨ih1, ih2, ih3⟩ := ih hrest
          refine ⟨?_, ?_, ?_⟩
          · intro d hd
            simp [pollLoop, hx, hp] at hd
            rcases hd with h2 | hd
            · exact h2
            · exact ih1 d hd
          · intro st h
            simp [pollLoop, hx, hp] at h
            exact ih2 st h
          · simp only [pollLoop, hx, hp]
            simpa using ih3
        · have hp' : isProcessing st0 = false := by
            cases hq : isProcessing st0
            · rfl
            · exact absurd hq hp
          refine ⟨?_, ?_, ?_⟩
          · intro d hd; simp [pollLoop, hx, hp'] at hd; exact hd
          · intro st h
            simp [pollLoop, hx, hp'] at h
            subst h; exact hp'
          · cases st0 with
            | str s =>
              simp [isEnumState] at hb
              simp only [isProcessing] at hp'
              rw [beq_eq_false_iff_ne] at hp'
              rcases hb with (h1 | h1) | h1
              · exact absurd h1 hp'
              · subst h1
                right; left
                simp [pollLoop, hx, isProcessing]
              · subst h1
                right; right; left
                simp [pollLoop, hx, isProcessing]
            | null => simp [isEnumState] at hb
            | bool x => simp [isEnumState] at hb
            | num x => simp [isEnumState] at hb
            | arr x => simp [isEnumState] at hb
            | obj x => simp [isEnumState] at hb

/-- C5, witness: the poller theorem applied to a single poll that reports
ACTIVE. -/
theorem C5_poller_terminal_behavior_witness :
    wPollActive.all pollRespEnum = true
    ∧ ((∀ d ∈ (pollLoop wPollActive).1, d = 2)
       ∧ (∀ st, (pollLoop wPollActive).2 = .finished st → isProcessing st = false)
       ∧ ((pollLoop wPollActive).2 = .stopped
          ∨ (pollLoop wPollActive).2 = .finished (Json.str "ACTIVE")
          ∨ (pollLoop wPollActive).2 = .finished (Json.str "FAILED")
          ∨ (pollLoop wPollActive).2 = .exhausted)) :=
  ⟨rfl, C5_poller_terminal_behavior wPollActive rfl⟩

/-- C6, counterexample: a response whose candidates list is present but
empty raises IndexError, which the inner handler does not catch, so the
workflow shows "Analysis failed" instead of the RawResult fallback the
claim promises for any missing candidate/part fields. -/
theorem C6_counterexample_empty_candidates :
    extractText respEmptyCandidates = .error .indexError
    ∧ parseAnalysisResponse respEmptyCandidates = .failed :=
  ⟨rfl, rfl⟩

/-- C6, amended: the two concrete behaviors hold as specified — the valid
summary text parses to the structured object and the text "not json"
yields the raw fallback — and in general a missing key (KeyError) or an
undecodable text yields the RawResult fallback, but an empty candidates or
parts list (IndexError) escapes the parse handler and aborts the analysis
action with no result display. -/
theorem C6_response_parsing :
    parseAnalysisResponse (mkCandidateResponse okSummaryText)
      = .structured (Json.obj [("summary", .str "ok"), ("key_events", .arr [])])
    ∧ parseAnalysisResponse (mkCandidateResponse "not json")
      = .raw (mkCandidateResponse "not json")
    ∧ (∀ r, extractText r = .error .keyError → parseAnalysisResponse r = .raw r)
    ∧ (∀ r t, extractText r = .ok (.str t) → jsonLoads t = none → parseAnalysisResponse r = .raw r)
    ∧ (∀ r, extractText r = .error .indexError → parseAnalysisResponse r = .failed) := by
  refine ⟨rfl, rfl, ?_, ?_, ?_⟩
  · intro r h; simp [parseAnalysisResponse, h]
  · intro r t h1 h2; simp [parseAnalysisResponse, h1, h2]
  · intro r h; simp [parseAnalysisResponse, h]

/-- C6, witness: the KeyError branch of the parsing theorem applied to an
empty response object. -/
theorem C6_response_parsing_witness :
    extractText (Json.obj []) = .error .keyError
    ∧ parseAnalysisResponse (Json.obj []) = .raw (Json.obj []) :=
  ⟨rfl, C6_response_parsing.2.2.1 (Json.obj []) rfl⟩

/-- C7: both tolerated poll-response wrappings deliver the server-reported
state: a body with a top-level "file" member yields `file.state`, and a
body without one yields its top-level `state` member. -/
theorem C7_poll_shape_tolerance (outer fileObj : List (String × Json)) (st : Json) :
    (outer.lookup "file" = some (Json.obj fileObj) → fileObj.lookup "state" = some st →
      extractPollState (Json.obj outer) = .ok st)
    ∧ (outer.lookup "file" = none → outer.lookup "state" = some st →
      extractPollState (Json.obj outer) = .ok st) := by
  constructor
  · intro h1 h2
    simp [extractPollState, pyContains, Json.getKey, h1, h2]
  · intro h1 h2
    simp [extractPollState, pyContains, Json.getKey, h1, h2]

/-- C7, witness: the extraction theorem applied to one body of each
wrapping. -/
theorem C7_poll_shape_tolerance_witness :
    ([("file", Json.obj [("state", Json.str "ACTIVE")])] : List (String × Json)).lookup "file"
        = some (Json.obj [("state", Json.str "ACTIVE")])
    ∧ extractPollState (Json.obj [("file", Json.obj [("state", Json.str "ACTIVE")])])
        = .ok (Json.str "ACTIVE")
    ∧ ([("state", Json.str "FAILED")] : List (String × Json)).lookup "file" = none
    ∧ extractPollState (Json.obj [("state", Json.str "FAILED")]) = .ok (Json.str "FAILED") :=
  ⟨rfl,
   (C7_poll_shape_tolerance [("file", Json.obj [("state", Json.str "ACTIVE")])]
      [("state", Json.str "ACTIVE")] (Json.str "ACTIVE")).1 rfl rfl,
   rfl,
   (C7_poll_shape_tolerance [("state", Json.str "FAILED")] [] (Json.str "FAILED")).2 rfl rfl⟩

/-- C8: for Summarization with focus "people near the entrance" the prompt
is the base instruction with the focus clause and the literal phrase
appended (and the phrase occurs in the prompt); an empty focus leaves the
base instruction alone, a non-empty one is always appended; the other
three modes produce their fixed templates whatever the focus text. -/
theorem C8_prompt_focus_append (focus : String) (hf : focus ≠ "") :
    buildPrompt .summarization "people near the entrance"
      = summarizationTemplate ++ (focusClause ++ "people near the entrance")
    ∧ occursIn " Focus the summary only on: people near the entrance".toList
        (buildPrompt .summarization "people near the entrance").toList = true
    ∧ buildPrompt .summarization "" = summarizationTemplate
    ∧ buildPrompt .summarization focus = summarizationTemplate ++ (focusClause ++ focus)
    ∧ (∀ g, buildPrompt .anomalyDetection g = anomalyTemplate
        ∧ buildPrompt .objectDetection g = objectTemplate
        ∧ buildPrompt .unknownPersonDetection g = unknownPersonTemplate) := by
  refine ⟨rfl, rfl, rfl, ?_, fun g => ⟨rfl, rfl, rfl⟩⟩
  simp [buildPrompt, hf]

/-- C8, witness: the prompt theorem applied to the specified focus text. -/
theorem C8_prompt_focus_append_witness :
    ("people near the entrance" : String) ≠ ""
    ∧ (buildPrompt .summarization "people near the entrance"
        = summarizationTemplate ++ (focusClause ++ "people near the entrance")
      ∧ occursIn " Focus the summary only on: people near the entrance".toList
          (buildPrompt .summarization "people near the entrance").toList = true
      ∧ buildPrompt .summarization "" = summarizationTemplate
      ∧ buildPrompt .summarization "people near the entrance"
          = summarizationTemplate ++ (focusClause ++ "people near the entrance")
      ∧ (∀ g, buildPrompt .anomalyDetection g = anomalyTemplate
          ∧ buildPrompt .objectDetection g = objectTemplate
          ∧ buildPrompt .unknownPersonDetection g = unknownPersonTemplate)) :=
  ⟨by simp, C8_prompt_focus_append "people near the entrance" (by simp)⟩

/-- C9: building the analysis request mutates nothing — the session state
comes back unchanged — so running the same mode against the same stored
handle with the same focus text a second time produces a structurally
identical payload. -/
theorem C9_request_build_idempotent (s : WorkflowState) (m : AnalysisMode) (focus : String) :
    (runAnalysisRequest s m focus).2 = s
    ∧ (runAnalysisRequest (runAnalysisRequest s m focus).2 m focus).1
        = (runAnalysisRequest s m focus).1 :=
  ⟨rfl, rfl⟩

/-- C10: whatever allowed extension the uploaded file has, the declared
content type in the upload-initiation headers and the mime type embedded
in every analysis payload are the constant "video/mp4": neither function
even takes the file type as an input. -/
theorem C10_mime_type_constant (ext : String) (_hext : ext ∈ allowedUploadTypes)
    (fileSize : Nat) (uri : Json) (prompt : String) :
    (initHeaders fileSize).lookup "X-Goog-Upload-Header-Content-Type" = some "video/mp4"
    ∧ payloadMime (buildPayload uri prompt) = .ok (Json.str "video/mp4") :=
  ⟨rfl, rfl⟩

/-- C10, witness: the mime theorem applied to a 10 MB .mov upload. -/
theorem C10_mime_type_constant_witness :
    ("mov" : String) ∈ allowedUploadTypes
    ∧ ((initHeaders 10485760).lookup "X-Goog-Upload-Header-Content-Type" = some "video/mp4"
       ∧ payloadMime (buildPayload (Json.str "https://files/uri1") (buildPrompt .objectDetection ""))
           = .ok (Json.str "video/mp4")) :=
  ⟨by simp [allowedUploadTypes],
   C10_mime_type_constant "mov" (by simp [allowedUploadTypes]) 10485760 _ _⟩
